import Mathlib

/-!
The weezeface watch face: a shallow embedding of `src/c/weezeface.c`.

The program is a set of callbacks run by a vendor event loop.  Every module-level
`static` of the C file is a field of `State`; every call into the vendor framework
is appended, in program order, to `State.calls`.  What the framework answers
(whether a decode or an allocation succeeds, the wall-clock time, the 12h/24h
setting, the hardware variant the binary was compiled for) is not decided by the
program, so it is read from an `Env`.
-/

namespace Weezeface

/-! ## Types supplied by the framework header -/

/-- Values of the framework's platform enumeration.  `switch
(PBL_PLATFORM_TYPE_CURRENT)` in the source lists `Aplite`, `Diorite`, `Basalt` and
`Chalk`; `Emery` is the enumeration's remaining value, listed by no `case`. -/
inductive PlatformType where
  | Aplite
  | Basalt
  | Chalk
  | Diorite
  | Emery
  deriving DecidableEq, Repr

/-- The `RESOURCE_ID_*` constants the source names. -/
inductive ResourceId where
  | IMAGE_MONO_WEEZER
  | IMAGE_COLOR_WEEZER
  | IMAGE_ROUND_WEEZER
  | IMAGE_MONO_DISS
  | IMAGE_COLOR_DISS
  | IMAGE_ROUND_DISS
  | FONT_CGOTHIC_28
  deriving DecidableEq, Repr

/-- A decoded bitmap object: `id` is its identity (the moment it was allocated),
`res` the resource it was decoded from.  A `GBitmap *` is an `Option GBitmap`,
`none` being `NULL`. -/
structure GBitmap where
  id : Nat
  res : ResourceId
  deriving DecidableEq, Repr

/-- The two fields of `struct tm` that the formats of `update_time` read. -/
structure Tm where
  tm_hour : Nat
  tm_min : Nat
  deriving DecidableEq, Repr

/-- The framework's rectangle: origin and size. -/
structure GRect where
  x : Int
  y : Int
  w : Int
  h : Int
  deriving DecidableEq, Repr

/-- The four functions of the source that are handed to the framework as
function pointers. -/
inductive Callback where
  | window_load
  | window_unload
  | tick_handler
  | bluetooth_callback
  deriving DecidableEq, Repr

/-- The framework's `WindowHandlers` struct; a field left out of a designated
initialiser is `NULL`. -/
structure WindowHandlers where
  load : Option Callback
  appear : Option Callback
  disappear : Option Callback
  unload : Option Callback
  deriving DecidableEq, Repr

/-- The framework's `ConnectionHandlers` struct. -/
structure ConnectionHandlers where
  pebble_app_connection_handler : Option Callback
  pebblekit_connection_handler : Option Callback
  deriving DecidableEq, Repr

/-- The framework's `TimeUnits` flags. -/
inductive TimeUnits where
  | SECOND_UNIT
  | MINUTE_UNIT
  | HOUR_UNIT
  | DAY_UNIT
  | MONTH_UNIT
  | YEAR_UNIT
  deriving DecidableEq, Repr

/-- One call into the framework, with the arguments the program passed and, for
calls that answer, the value `ret` the framework gave back.  Handles other than
bitmaps are `Option Nat`, `none` being `NULL`.  A text argument is
`Option (List Char)`: `none` is a buffer whose contents the formatter left
indeterminate. -/
inductive Call where
  | time
  | localtime (ret : Tm)
  | clock_is_24h_style (ret : Bool)
  | strftime (maxsize : Nat) (format : List Char) (ret : Option (List Char))
  | text_layer_set_text (layer : Option Nat) (text : Option (List Char))
  | gbitmap_create_with_resource (res : ResourceId) (ret : Option GBitmap)
  | bitmap_layer_set_bitmap (layer : Option Nat) (bmp : Option GBitmap)
  | vibes_double_pulse
  | window_get_root_layer (window : Option Nat)
  | layer_get_bounds (ret : GRect)
  | bitmap_layer_create (frame : GRect) (ret : Option Nat)
  | bitmap_layer_get_layer (layer : Option Nat)
  | layer_add_child
  | resource_get_handle (res : ResourceId)
  | fonts_load_custom_font (ret : Option Nat)
  | text_layer_create (frame : GRect) (ret : Option Nat)
  | text_layer_set_background_color (layer : Option Nat)
  | text_layer_set_text_color (layer : Option Nat)
  | text_layer_set_font (layer : Option Nat) (font : Option Nat)
  | text_layer_set_text_alignment (layer : Option Nat)
  | text_layer_get_layer (layer : Option Nat)
  | bitmap_layer_destroy (layer : Option Nat)
  | gbitmap_destroy (bmp : Option GBitmap)
  | text_layer_destroy (layer : Option Nat)
  | layer_destroy (layer : Option Nat)
  | fonts_unload_custom_font (font : Option Nat)
  | window_create (ret : Option Nat)
  | window_set_window_handlers (window : Option Nat) (handlers : WindowHandlers)
  | window_stack_push (window : Option Nat) (animated : Bool)
  | tick_timer_service_subscribe (units : TimeUnits) (handler : Callback)
  | connection_service_subscribe (handlers : ConnectionHandlers)
  | window_destroy (window : Option Nat)
  deriving DecidableEq, Repr

/-- What the program cannot decide.  The `Nat` argument of an answer is the moment
of the question: the number of framework calls made so far. -/
structure Env where
  /-- The value of `PBL_PLATFORM_TYPE_CURRENT`. -/
  platform : PlatformType
  /-- Which branch `PBL_IF_ROUND_ELSE` takes. -/
  round : Bool
  /-- Whether `gbitmap_create_with_resource` succeeds; it answers `NULL` otherwise. -/
  decodes : Nat → ResourceId → Bool
  /-- Whether any other `*_create` or font load succeeds. -/
  creates : Nat → Bool
  /-- The answer of `clock_is_24h_style()`. -/
  clock_is_24h_style : Nat → Bool
  /-- The answer of `localtime(&temp)`. -/
  localtime : Nat → Tm
  /-- The answer of `layer_get_bounds` on the window's root layer. -/
  bounds : GRect

/-- The module-level statics of the source, in declaration order, the `static`
buffer of `update_time`, and the framework calls made so far (oldest first). -/
structure State where
  window : Option Nat
  s_time_layer : Option Nat
  bitmap_layer : Option Nat
  s_battery_layer : Option Nat
  current_bmp : Option GBitmap
  mono_weezer : Option GBitmap
  color_weezer : Option GBitmap
  round_weezer : Option GBitmap
  mono_diss : Option GBitmap
  color_diss : Option GBitmap
  round_diss : Option GBitmap
  s_time_font : Option Nat
  s_battery_level : Int
  s_buffer : Option (List Char)
  calls : List Call
  deriving DecidableEq, Repr

/-- The state at program start: C zero-initialises every static, and nothing has
been asked of the framework. -/
def State.initial : State where
  window := none
  s_time_layer := none
  bitmap_layer := none
  s_battery_layer := none
  current_bmp := none
  mono_weezer := none
  color_weezer := none
  round_weezer := none
  mono_diss := none
  color_diss := none
  round_diss := none
  s_time_font := none
  s_battery_level := 0
  s_buffer := some []
  calls := []

/-- Record one framework call. -/
def emit (s : State) (c : Call) : State :=
  { s with calls := s.calls ++ [c] }

/-- The framework's answer to `gbitmap_create_with_resource(r)` asked at moment
`t`: a fresh bitmap decoded from `r`, or `NULL`. -/
def gbitmap_create_with_resource (env : Env) (t : Nat) (r : ResourceId) : Option GBitmap :=
  if env.decodes t r then some ⟨t, r⟩ else none

/-- The framework's answer to any other allocating call asked at moment `t`: a
fresh handle, or `NULL`. -/
def create_handle (env : Env) (t : Nat) : Option Nat :=
  if env.creates t then some t else none

/-! ## `show_weezer` and `bluetooth_callback` -/

/-- Source `show_weezer` (lines 44-79). -/
def show_weezer (env : Env) (s : State) : State :=
  match env.platform with
  | .Aplite | .Diorite =>
    let s :=
      if s.mono_weezer.isNone then
        let b := gbitmap_create_with_resource env s.calls.length .IMAGE_MONO_WEEZER
        { emit s (.gbitmap_create_with_resource .IMAGE_MONO_WEEZER b) with mono_weezer := b }
      else s
    let s := emit s (.bitmap_layer_set_bitmap s.bitmap_layer s.mono_weezer)
    { s with current_bmp := s.mono_weezer }
  | .Basalt =>
    let s :=
      if s.color_weezer.isNone then
        let b := gbitmap_create_with_resource env s.calls.length .IMAGE_COLOR_WEEZER
        { emit s (.gbitmap_create_with_resource .IMAGE_COLOR_WEEZER b) with color_weezer := b }
      else s
    let s := emit s (.bitmap_layer_set_bitmap s.bitmap_layer s.color_weezer)
    { s with current_bmp := s.color_weezer }
  | .Chalk =>
    let s :=
      if s.round_weezer.isNone then
        let b := gbitmap_create_with_resource env s.calls.length .IMAGE_ROUND_WEEZER
        { emit s (.gbitmap_create_with_resource .IMAGE_ROUND_WEEZER b) with round_weezer := b }
      else s
    let s := emit s (.bitmap_layer_set_bitmap s.bitmap_layer s.round_weezer)
    { s with current_bmp := s.round_weezer }
  | .Emery => s

/-- Source `bluetooth_callback` (lines 81-125). -/
def bluetooth_callback (env : Env) (connected : Bool) (s : State) : State :=
  if connected then
    show_weezer env s
  else
    let s := emit s .vibes_double_pulse
    match env.platform with
    | .Aplite | .Diorite =>
      let s :=
        if s.mono_diss.isNone then
          let b := gbitmap_create_with_resource env s.calls.length .IMAGE_MONO_DISS
          { emit s (.gbitmap_create_with_resource .IMAGE_MONO_DISS b) with mono_diss := b }
        else s
      let s := emit s (.bitmap_layer_set_bitmap s.bitmap_layer s.mono_diss)
      { s with current_bmp := s.mono_diss }
    | .Basalt =>
      let s :=
        if s.color_diss.isNone then
          let b := gbitmap_create_with_resource env s.calls.length .IMAGE_COLOR_DISS
          { emit s (.gbitmap_create_with_resource .IMAGE_COLOR_DISS b) with color_diss := b }
        else s
      let s := emit s (.bitmap_layer_set_bitmap s.bitmap_layer s.color_diss)
      { s with current_bmp := s.color_diss }
    | .Chalk =>
      let s :=
        if s.round_diss.isNone then
          let b := gbitmap_create_with_resource env s.calls.length .IMAGE_ROUND_DISS
          { emit s (.gbitmap_create_with_resource .IMAGE_ROUND_DISS b) with round_diss := b }
        else s
      let s := emit s (.bitmap_layer_set_bitmap s.bitmap_layer s.round_diss)
      { s with current_bmp := s.round_diss }
    | .Emery => s

/-! ## The clock text -/

/-- The decimal digit character of `d mod 10`. -/
def digit (d : Nat) : Char :=
  Char.ofNat (48 + d % 10)

/-- A number written as two decimal digits, zero-padded. -/
def two_digits (n : Nat) : List Char :=
  [digit (n / 10), digit n]

/-- The hour of the 12-hour clock for an hour of the 24-hour clock: the
remainder modulo 12, with 12 standing for a remainder of 0. -/
def hour12 (h : Nat) : Nat :=
  if h % 12 = 0 then 12 else h % 12

/-- Modelled from the spec: the text the platform's time formatter produces for a
format, which is library code outside this repository.  Only what the two
formats of `update_time` use is modelled, after the C library contract: `%H` is
the hour of the 24-hour clock as two digits, `%I` the hour of the 12-hour clock
as two digits, `%M` the minute as two digits, `%%` a percent sign, any other
character stands for itself; another conversion is outside the model (`none`). -/
def strftime_expand : List Char → Tm → Option (List Char)
  | [], _ => some []
  | [c], _ => if c = '%' then none else some [c]
  | c :: d :: rest, tm =>
    if c = '%' then
      if d = 'H' then (strftime_expand rest tm).map (two_digits tm.tm_hour ++ ·)
      else if d = 'I' then (strftime_expand rest tm).map (two_digits (hour12 tm.tm_hour) ++ ·)
      else if d = 'M' then (strftime_expand rest tm).map (two_digits tm.tm_min ++ ·)
      else if d = '%' then (strftime_expand rest tm).map ('%' :: ·)
      else none
    else (strftime_expand (d :: rest) tm).map (c :: ·)

/-- Modelled from the spec: the platform's `strftime(s, maxsize, format, tm)`,
library code outside this repository.  The expansion is stored when it fits
`maxsize` bytes together with its terminating zero byte; otherwise the buffer's
contents are indeterminate, which is `none`. -/
def strftime (maxsize : Nat) (format : List Char) (tm : Tm) : Option (List Char) :=
  match strftime_expand format tm with
  | some out => if out.length + 1 ≤ maxsize then some out else none
  | none => none

/-- Source `update_time` (lines 26-37); `sizeof(s_buffer)` is 8. -/
def update_time (env : Env) (s : State) : State :=
  let s := emit s .time
  let tick_time := env.localtime s.calls.length
  let s := emit s (.localtime tick_time)
  let style := env.clock_is_24h_style s.calls.length
  let s := emit s (.clock_is_24h_style style)
  let format := if style then ['%', 'H', ':', '%', 'M'] else ['%', 'I', ':', '%', 'M']
  let out := strftime 8 format tick_time
  let s := { emit s (.strftime 8 format out) with s_buffer := out }
  emit s (.text_layer_set_text s.s_time_layer s.s_buffer)

/-- Source `tick_handler` (lines 39-42): both arguments are ignored. -/
def tick_handler (env : Env) (_tick_time : Tm) (_units_changed : TimeUnits) (s : State) : State :=
  update_time env s

/-! ## Window handlers -/

/-- Source `window_load` (lines 127-154).  The parameter `window` shadows the
static of the same name. -/
def window_load (env : Env) (window : Option Nat) (s : State) : State :=
  let s := emit s (.window_get_root_layer window)
  let bounds := env.bounds
  let s := emit s (.layer_get_bounds bounds)
  let l := create_handle env s.calls.length
  let s := { emit s (.bitmap_layer_create bounds l) with bitmap_layer := l }
  let s := emit s (.bitmap_layer_get_layer s.bitmap_layer)
  let s := emit s .layer_add_child
  let s := emit s (.resource_get_handle .FONT_CGOTHIC_28)
  let f := create_handle env s.calls.length
  let s := { emit s (.fonts_load_custom_font f) with s_time_font := f }
  let frame : GRect := ⟨0, if env.round then 20 else 16, bounds.w, bounds.h⟩
  let t := create_handle env s.calls.length
  let s := { emit s (.text_layer_create frame t) with s_time_layer := t }
  let s := emit s (.text_layer_set_background_color s.s_time_layer)
  let s := emit s (.text_layer_set_text_color s.s_time_layer)
  let s := emit s (.text_layer_set_text s.s_time_layer (some ['0', '0', ':', '0', '0']))
  let s := emit s (.text_layer_set_font s.s_time_layer s.s_time_font)
  let s := emit s (.text_layer_set_text_alignment s.s_time_layer)
  let s := emit s (.text_layer_get_layer s.s_time_layer)
  let s := emit s .layer_add_child
  show_weezer env s

/-- Source `window_unload` (lines 156-175).  No static is assigned. -/
def window_unload (_env : Env) (_window : Option Nat) (s : State) : State :=
  let s := emit s (.bitmap_layer_destroy s.bitmap_layer)
  let s :=
    if s.current_bmp.isSome then emit s (.gbitmap_destroy s.current_bmp)
    else s
  let s := emit s (.text_layer_destroy s.s_time_layer)
  let s := emit s (.layer_destroy s.s_battery_layer)
  emit s (.fonts_unload_custom_font s.s_time_font)

/-! ## Entry points -/

/-- The handlers most recently set on `window` by `window_set_window_handlers`;
all `NULL` when none was set. -/
def window_handlers_of (cs : List Call) (window : Option Nat) : WindowHandlers :=
  cs.foldl
    (fun acc c =>
      match c with
      | .window_set_window_handlers w h => if w = window then h else acc
      | _ => acc)
    ⟨none, none, none, none⟩

/-- The framework running a window handler: the function the pointer names is
called with the window; a `NULL` handler is skipped. -/
def run_window_handler (env : Env) (cb : Option Callback) (window : Option Nat) (s : State) : State :=
  match cb with
  | some .window_load => window_load env window s
  | some .window_unload => window_unload env window s
  | _ => s

/-- The framework's `window_stack_push`: the pushed window is loaded, that is, its
`load` handler runs, before the call returns. -/
def window_stack_push (env : Env) (window : Option Nat) (animated : Bool) (s : State) : State :=
  let s := emit s (.window_stack_push window animated)
  run_window_handler env (window_handlers_of s.calls window).load window s

/-- The framework's `window_destroy`: the window is unloaded, that is, its
`unload` handler runs, before the call returns. -/
def window_destroy (env : Env) (window : Option Nat) (s : State) : State :=
  let s := emit s (.window_destroy window)
  run_window_handler env (window_handlers_of s.calls window).unload window s

/-- Source `init` (lines 177-194). -/
def init (env : Env) (s : State) : State :=
  let w := create_handle env s.calls.length
  let s := { emit s (.window_create w) with window := w }
  let s := emit s (.window_set_window_handlers s.window
    { load := some .window_load, appear := none, disappear := none, unload := some .window_unload })
  let s := window_stack_push env s.window true s
  let s := update_time env s
  let s := emit s (.tick_timer_service_subscribe .MINUTE_UNIT .tick_handler)
  emit s (.connection_service_subscribe
    { pebble_app_connection_handler := some .bluetooth_callback, pebblekit_connection_handler := none })

/-- Source `deinit` (lines 196-199). -/
def deinit (env : Env) (s : State) : State :=
  window_destroy env s.window s

/-! ## The event loop -/

/-- What the framework's event loop delivers to the four registered callbacks. -/
inductive Event where
  | window_load
  | window_unload
  | tick (tick_time : Tm) (units_changed : TimeUnits)
  | connection (connected : Bool)
  deriving DecidableEq, Repr

/-- Deliver one event: the callback registered for it runs to completion. -/
def step (env : Env) (s : State) : Event → State
  | .window_load => window_load env s.window s
  | .window_unload => window_unload env s.window s
  | .tick tick_time units_changed => tick_handler env tick_time units_changed s
  | .connection connected => bluetooth_callback env connected s

/-- Deliver a finite sequence of events, one after the other. -/
def run (env : Env) (evs : List Event) (s : State) : State :=
  evs.foldl (step env) s

/-! ## Observations on the call log -/

/-- Number of vibration pulses issued. -/
def vibrations (cs : List Call) : Nat :=
  cs.count .vibes_double_pulse

/-- The resources passed to `gbitmap_create_with_resource`, in order. -/
def decoded (cs : List Call) : List ResourceId :=
  cs.filterMap fun c =>
    match c with
    | .gbitmap_create_with_resource r _ => some r
    | _ => none

/-- The bitmaps that `gbitmap_create_with_resource` returned, in order. -/
def created_bitmaps (cs : List Call) : List GBitmap :=
  cs.filterMap fun c =>
    match c with
    | .gbitmap_create_with_resource _ ret => ret
    | _ => none

/-- The arguments of `gbitmap_destroy`, in order. -/
def destroyed_bitmaps (cs : List Call) : List (Option GBitmap) :=
  cs.filterMap fun c =>
    match c with
    | .gbitmap_destroy b => some b
    | _ => none

/-- The arguments of `layer_destroy`, in order. -/
def destroyed_layers (cs : List Call) : List (Option Nat) :=
  cs.filterMap fun c =>
    match c with
    | .layer_destroy l => some l
    | _ => none

/-- The layer and bitmap of the most recent `bitmap_layer_set_bitmap`. -/
def last_set_bitmap (cs : List Call) : Option (Option Nat × Option GBitmap) :=
  cs.foldl
    (fun acc c =>
      match c with
      | .bitmap_layer_set_bitmap l b => some (l, b)
      | _ => acc)
    none

/-- The text of the most recent `text_layer_set_text`. -/
def last_set_text (cs : List Call) : Option (Option Nat × Option (List Char)) :=
  cs.foldl
    (fun acc c =>
      match c with
      | .text_layer_set_text l t => some (l, t)
      | _ => acc)
    none

/-- The framework slots a callback can be registered in; a window slot names the
window whose handler it is. -/
inductive Slot where
  | window_load (window : Option Nat)
  | window_appear (window : Option Nat)
  | window_disappear (window : Option Nat)
  | window_unload (window : Option Nat)
  | tick (units : TimeUnits)
  | pebble_app_connection
  | pebblekit_connection
  deriving DecidableEq, Repr

/-- A registration when the handler pointer is not `NULL`. -/
def slot_entry (slot : Slot) (cb : Option Callback) : List (Slot × Callback) :=
  match cb with
  | some f => [(slot, f)]
  | none => []

/-- The callbacks one framework call registers. -/
def registered_by : Call → List (Slot × Callback)
  | .window_set_window_handlers w h =>
    slot_entry (.window_load w) h.load ++ slot_entry (.window_appear w) h.appear
      ++ slot_entry (.window_disappear w) h.disappear ++ slot_entry (.window_unload w) h.unload
  | .tick_timer_service_subscribe units f => [(.tick units, f)]
  | .connection_service_subscribe h =>
    slot_entry .pebble_app_connection h.pebble_app_connection_handler
      ++ slot_entry .pebblekit_connection h.pebblekit_connection_handler
  | _ => []

/-- Every callback registration in the log, in order. -/
def registrations (cs : List Call) : List (Slot × Callback) :=
  cs.flatMap registered_by

/-! ## The selection table, as the specification words it -/

/-- The six-way table: which image resource goes with a platform type and a
connection state.  A platform type outside the table has none. -/
def image_for : PlatformType → Bool → Option ResourceId
  | .Aplite, true => some .IMAGE_MONO_WEEZER
  | .Diorite, true => some .IMAGE_MONO_WEEZER
  | .Basalt, true => some .IMAGE_COLOR_WEEZER
  | .Chalk, true => some .IMAGE_ROUND_WEEZER
  | .Aplite, false => some .IMAGE_MONO_DISS
  | .Diorite, false => some .IMAGE_MONO_DISS
  | .Basalt, false => some .IMAGE_COLOR_DISS
  | .Chalk, false => some .IMAGE_ROUND_DISS
  | .Emery, _ => none

/-- The module-level pointer that caches the bitmap of a resource; the font
resource has none. -/
def cached (s : State) : ResourceId → Option GBitmap
  | .IMAGE_MONO_WEEZER => s.mono_weezer
  | .IMAGE_COLOR_WEEZER => s.color_weezer
  | .IMAGE_ROUND_WEEZER => s.round_weezer
  | .IMAGE_MONO_DISS => s.mono_diss
  | .IMAGE_COLOR_DISS => s.color_diss
  | .IMAGE_ROUND_DISS => s.round_diss
  | .FONT_CGOTHIC_28 => none

/-- The six cached bitmap pointers. -/
def cached_pointers (s : State) : List (Option GBitmap) :=
  [s.mono_weezer, s.color_weezer, s.round_weezer, s.mono_diss, s.color_diss, s.round_diss]

/-- Each cached pointer is null or holds a bitmap decoded from its own resource. -/
def cache_ok (s : State) : Prop :=
  ∀ r b, cached s r = some b → b.res = r

/-- What a call of `bluetooth_callback(connected)` in state `s` has to decode: the
table's resource when its cached pointer is null, nothing otherwise. -/
def selected_decode (env : Env) (connected : Bool) (s : State) : List ResourceId :=
  match image_for env.platform connected with
  | some r => if (cached s r).isNone then [r] else []
  | none => []

/-- The connection state whose image an event's callback selects: `window_load`
ends in `show_weezer`, a connection event runs `bluetooth_callback`; the other
callbacks select no image. -/
def event_selects : Event → Option Bool
  | .window_load => some true
  | .connection connected => some connected
  | _ => none

/-- What the callback of an event has to decode in state `s`. -/
def event_decode (env : Env) (s : State) (e : Event) : List ResourceId :=
  match event_selects e with
  | some connected => selected_decode env connected s
  | none => []

/-- The resources that are disconnect images. -/
def is_diss : ResourceId → Bool
  | .IMAGE_MONO_DISS => true
  | .IMAGE_COLOR_DISS => true
  | .IMAGE_ROUND_DISS => true
  | _ => false

/-! ## Environments used for concrete runs -/

/-- An environment in which every decode and allocation succeeds. -/
def Env.good (p : PlatformType) : Env where
  platform := p
  round := decide (p = .Chalk)
  decodes := fun _ _ => true
  creates := fun _ => true
  clock_is_24h_style := fun _ => true
  localtime := fun _ => ⟨9, 5⟩
  bounds := ⟨0, 0, 144, 168⟩

/-- An environment in which no image can be decoded. -/
def Env.no_decode (p : PlatformType) : Env where
  platform := p
  round := decide (p = .Chalk)
  decodes := fun _ _ => false
  creates := fun _ => true
  clock_is_24h_style := fun _ => false
  localtime := fun _ => ⟨0, 0⟩
  bounds := ⟨0, 0, 144, 168⟩

/-! ## How `show_weezer` and `bluetooth_callback` act on the state -/

theorem show_weezer_eq (env : Env) (s : State) :
    show_weezer env s = bluetooth_callback env true s := by
  simp [bluetooth_callback]

theorem bluetooth_callback_decoded (env : Env) (c : Bool) (s : State) :
    decoded (bluetooth_callback env c s).calls = decoded s.calls ++ selected_decode env c s := by
  cases c <;> rcases hp : env.platform <;>
    simp [bluetooth_callback, show_weezer, emit, hp, decoded, selected_decode, image_for, cached,
      List.filterMap_append] <;>
    split <;> simp_all [List.filterMap_append]

theorem bluetooth_callback_vibrations (env : Env) (c : Bool) (s : State) :
    vibrations (bluetooth_callback env c s).calls
      = vibrations s.calls + (if c then 0 else 1) := by
  cases c <;> rcases hp : env.platform <;>
    simp [bluetooth_callback, show_weezer, emit, hp, vibrations] <;>
    split <;> simp_all

theorem bluetooth_callback_cached (env : Env) (c : Bool) (s : State) (r : ResourceId) :
    cached (bluetooth_callback env c s) r
      = if image_for env.platform c = some r ∧ cached s r = none then
          gbitmap_create_with_resource env (s.calls.length + (if c then 0 else 1)) r
        else cached s r := by
  cases c <;> rcases hp : env.platform <;> cases r <;>
    simp [bluetooth_callback, show_weezer, emit, hp, image_for, cached] <;>
    split <;> simp_all

theorem bluetooth_callback_shows (env : Env) (c : Bool) (s : State) (r : ResourceId)
    (hr : image_for env.platform c = some r) :
    (bluetooth_callback env c s).current_bmp = cached (bluetooth_callback env c s) r ∧
    last_set_bitmap (bluetooth_callback env c s).calls
      = some (s.bitmap_layer, cached (bluetooth_callback env c s) r) := by
  cases c <;> rcases hp : env.platform <;> cases r <;>
    simp [hp, image_for] at hr <;>
    simp [bluetooth_callback, show_weezer, emit, hp, cached, last_set_bitmap] <;>
    split <;> simp_all

theorem bluetooth_callback_unlisted (env : Env) (c : Bool) (s : State)
    (hr : image_for env.platform c = none) :
    bluetooth_callback env c s = if c then s else emit s .vibes_double_pulse := by
  cases c <;> rcases hp : env.platform <;>
    simp [hp, image_for] at hr <;>
    simp [bluetooth_callback, show_weezer, hp]

theorem bluetooth_callback_layer (env : Env) (c : Bool) (s : State) :
    (bluetooth_callback env c s).bitmap_layer = s.bitmap_layer := by
  cases c <;> rcases hp : env.platform <;>
    simp [bluetooth_callback, show_weezer, emit, hp] <;>
    split <;> simp_all

theorem bluetooth_callback_other_statics (env : Env) (c : Bool) (s : State) :
    (bluetooth_callback env c s).window = s.window ∧
    (bluetooth_callback env c s).s_time_layer = s.s_time_layer ∧
    (bluetooth_callback env c s).s_battery_layer = s.s_battery_layer ∧
    (bluetooth_callback env c s).s_time_font = s.s_time_font ∧
    (bluetooth_callback env c s).s_battery_level = s.s_battery_level ∧
    (bluetooth_callback env c s).s_buffer = s.s_buffer := by
  cases c <;> rcases hp : env.platform <;>
    simp [bluetooth_callback, show_weezer, emit, hp] <;>
    split <;> simp_all

/-! ## How the other handlers act on the state -/

theorem update_time_vibrations (env : Env) (s : State) :
    vibrations (update_time env s).calls = vibrations s.calls := by
  simp [update_time, emit, vibrations]

theorem window_load_vibrations (env : Env) (w : Option Nat) (s : State) :
    vibrations (window_load env w s).calls = vibrations s.calls := by
  simp only [window_load]
  rw [show_weezer_eq, bluetooth_callback_vibrations]
  simp [emit, vibrations]

theorem window_unload_vibrations (env : Env) (w : Option Nat) (s : State) :
    vibrations (window_unload env w s).calls = vibrations s.calls := by
  simp only [window_unload]
  split <;> simp [emit, vibrations]

theorem run_window_handler_vibrations (env : Env) (cb : Option Callback) (w : Option Nat)
    (s : State) :
    vibrations (run_window_handler env cb w s).calls = vibrations s.calls := by
  unfold run_window_handler
  split
  · exact window_load_vibrations env w s
  · exact window_unload_vibrations env w s
  · rfl

theorem init_vibrations (env : Env) (s : State) :
    vibrations (init env s).calls = vibrations s.calls := by
  simp only [init, window_stack_push]
  simp only [emit, vibrations, List.count_append]
  have h1 := update_time_vibrations
  have h2 := run_window_handler_vibrations
  simp only [vibrations] at h1 h2
  rw [h1, h2]
  simp

theorem deinit_vibrations (env : Env) (s : State) :
    vibrations (deinit env s).calls = vibrations s.calls := by
  simp only [deinit, window_destroy]
  rw [run_window_handler_vibrations]
  simp [emit, vibrations]

/-! ## C2 -/

/-- C2: a vibration is issued on disconnect and only on disconnect.  In every state,
`bluetooth_callback(false)` adds exactly one `vibes_double_pulse` call to the log,
`bluetooth_callback(true)` adds none, and neither do `window_load`,
`window_unload`, `tick_handler`, `init` and `deinit` (the last two together with
the window handler the framework runs inside them). -/
theorem vibration_only_on_disconnect (env : Env) (s : State) :
    vibrations (bluetooth_callback env false s).calls = vibrations s.calls + 1 ∧
    vibrations (bluetooth_callback env true s).calls = vibrations s.calls ∧
    (∀ w, vibrations (window_load env w s).calls = vibrations s.calls) ∧
    (∀ w, vibrations (window_unload env w s).calls = vibrations s.calls) ∧
    (∀ tm u, vibrations (tick_handler env tm u s).calls = vibrations s.calls) ∧
    vibrations (init env s).calls = vibrations s.calls ∧
    vibrations (deinit env s).calls = vibrations s.calls := by
  refine ⟨?_, ?_, ?_, ?_, ?_, ?_, ?_⟩
  · simpa using bluetooth_callback_vibrations env false s
  · simpa using bluetooth_callback_vibrations env true s
  · exact fun w => window_load_vibrations env w s
  · exact fun w => window_unload_vibrations env w s
  · exact fun _ _ => update_time_vibrations env s
  · exact init_vibrations env s
  · exact deinit_vibrations env s

/-! ## C7 -/

theorem registrations_append (cs ds : List Call) :
    registrations (cs ++ ds) = registrations cs ++ registrations ds := by
  simp [registrations, List.flatMap_append]

theorem bluetooth_callback_registrations (env : Env) (c : Bool) (s : State) :
    registrations (bluetooth_callback env c s).calls = registrations s.calls := by
  cases c <;> rcases hp : env.platform <;>
    simp [bluetooth_callback, show_weezer, emit, hp, registrations, registered_by] <;>
    split <;> simp_all [registered_by]

theorem update_time_registrations (env : Env) (s : State) :
    registrations (update_time env s).calls = registrations s.calls := by
  simp [update_time, emit, registrations, registered_by]

theorem window_load_registrations (env : Env) (w : Option Nat) (s : State) :
    registrations (window_load env w s).calls = registrations s.calls := by
  simp only [window_load]
  rw [show_weezer_eq, bluetooth_callback_registrations]
  simp [emit, registrations, registered_by]

theorem window_unload_registrations (env : Env) (w : Option Nat) (s : State) :
    registrations (window_unload env w s).calls = registrations s.calls := by
  simp only [window_unload]
  split <;> simp [emit, registrations, registered_by]

theorem run_window_handler_registrations (env : Env) (cb : Option Callback) (w : Option Nat)
    (s : State) :
    registrations (run_window_handler env cb w s).calls = registrations s.calls := by
  unfold run_window_handler
  split
  · exact window_load_registrations env w s
  · exact window_unload_registrations env w s
  · rfl

theorem window_handlers_of_append (cs ds : List Call) (w : Option Nat) :
    window_handlers_of (cs ++ ds) w
      = ds.foldl
          (fun acc c =>
            match c with
            | .window_set_window_handlers w1 h => if w1 = w then h else acc
            | _ => acc)
          (window_handlers_of cs w) := by
  simp [window_handlers_of, List.foldl_append]

theorem bluetooth_callback_window_handlers (env : Env) (c : Bool) (s : State) (w : Option Nat) :
    window_handlers_of (bluetooth_callback env c s).calls w = window_handlers_of s.calls w := by
  cases c <;> rcases hp : env.platform <;>
    simp [bluetooth_callback, show_weezer, emit, hp, window_handlers_of_append] <;>
    split <;> simp_all [window_handlers_of_append]

theorem update_time_window_handlers (env : Env) (s : State) (w : Option Nat) :
    window_handlers_of (update_time env s).calls w = window_handlers_of s.calls w := by
  simp [update_time, emit, window_handlers_of_append]

theorem window_load_window_handlers (env : Env) (w0 : Option Nat) (s : State) (w : Option Nat) :
    window_handlers_of (window_load env w0 s).calls w = window_handlers_of s.calls w := by
  simp only [window_load]
  rw [show_weezer_eq, bluetooth_callback_window_handlers]
  simp [emit, window_handlers_of_append]

theorem window_unload_window_handlers (env : Env) (w0 : Option Nat) (s : State)
    (w : Option Nat) :
    window_handlers_of (window_unload env w0 s).calls w = window_handlers_of s.calls w := by
  simp only [window_unload]
  split <;> simp [emit, window_handlers_of_append]

theorem run_window_handler_window_handlers (env : Env) (cb : Option Callback)
    (w0 : Option Nat) (s : State) (w : Option Nat) :
    window_handlers_of (run_window_handler env cb w0 s).calls w
      = window_handlers_of s.calls w := by
  unfold run_window_handler
  split
  · exact window_load_window_handlers env w0 s w
  · exact window_unload_window_handlers env w0 s w
  · rfl

theorem update_time_window (env : Env) (s : State) :
    (update_time env s).window = s.window := by
  simp [update_time, emit]

theorem window_load_window (env : Env) (w : Option Nat) (s : State) :
    (window_load env w s).window = s.window := by
  simp only [window_load]
  rw [show_weezer_eq, (bluetooth_callback_other_statics env true _).1]
  simp [emit]

theorem window_unload_window (env : Env) (w : Option Nat) (s : State) :
    (window_unload env w s).window = s.window := by
  simp only [window_unload]
  split <;> simp [emit]

theorem run_window_handler_window (env : Env) (cb : Option Callback) (w : Option Nat)
    (s : State) :
    (run_window_handler env cb w s).window = s.window := by
  unfold run_window_handler
  split
  · exact window_load_window env w s
  · exact window_unload_window env w s
  · rfl

theorem init_window (env : Env) (s : State) :
    (init env s).window = create_handle env s.calls.length := by
  simp only [init, window_stack_push]
  simp only [emit, update_time_window, run_window_handler_window]

/-- What `init` asks of the framework, in order: the window is created, the
handlers are set on that window, that window is pushed (its load handler,
`window_load`, runs inside the push), the time is rendered, and the two
services are subscribed. -/
theorem init_calls (env : Env) (s : State) :
    (init env s).calls
      = (update_time env
          (window_load env (create_handle env s.calls.length)
            { s with
              window := create_handle env s.calls.length,
              calls := s.calls ++
                [Call.window_create (create_handle env s.calls.length),
                 Call.window_set_window_handlers (create_handle env s.calls.length)
                   ⟨some Callback.window_load, none, none, some Callback.window_unload⟩,
                 Call.window_stack_push (create_handle env s.calls.length) true] })).calls
        ++ [Call.tick_timer_service_subscribe TimeUnits.MINUTE_UNIT Callback.tick_handler,
            Call.connection_service_subscribe ⟨some Callback.bluetooth_callback, none⟩] := by
  simp [init, window_stack_push, emit, window_handlers_of_append, run_window_handler]

/-- C7: `init` registers exactly four callbacks, each once: `window_load` and
`window_unload` as the load and unload handlers of the window it has just
created, stored in `window` and then pushed, `tick_handler` with the tick timer
service at `MINUTE_UNIT`, and `bluetooth_callback` as the connection service's
app-connection handler.  The registrations in the log after `init` are those
before it followed by exactly these four, whatever runs inside `init`; the
handlers in force on the program's window after `init` are `window_load` and
`window_unload`, with no appear or disappear handler. -/
theorem init_registers_four_callbacks (env : Env) (s : State) :
    registrations (init env s).calls
      = registrations s.calls ++
        [(Slot.window_load (init env s).window, Callback.window_load),
         (Slot.window_unload (init env s).window, Callback.window_unload),
         (Slot.tick TimeUnits.MINUTE_UNIT, Callback.tick_handler),
         (Slot.pebble_app_connection, Callback.bluetooth_callback)] ∧
    (init env s).window = create_handle env s.calls.length ∧
    window_handlers_of (init env s).calls (init env s).window
      = ⟨some Callback.window_load, none, none, some Callback.window_unload⟩ := by
  have hw := init_window env s
  refine ⟨?_, hw, ?_⟩
  · rw [hw]
    simp only [init, window_stack_push]
    simp only [emit, registrations_append, update_time_registrations,
      run_window_handler_registrations]
    simp [registrations, registered_by, slot_entry]
  · rw [hw, init_calls, window_handlers_of_append, update_time_window_handlers,
      window_load_window_handlers]
    simp [window_handlers_of_append]

/-! ## C6 -/

theorem hour12_eq (h : Nat) : hour12 h = (h + 11) % 12 + 1 := by
  unfold hour12
  split <;> omega

theorem two_digits_eq (n : Nat) (h : n < 100) :
    two_digits n = [Char.ofNat (48 + n / 10), Char.ofNat (48 + n % 10)] := by
  have e : n / 10 % 10 = n / 10 := by omega
  simp [two_digits, digit, e]

/-- C6: `update_time` renders the local time as hours and minutes.  When the
framework answers a local time with hour `h` below 24 and minute `m` below 60,
`update_time` asks the formatter once and sets on the time layer the five
characters `HH:MM`, both fields two zero-padded decimal digits, where `HH` is `h`
under the 24-hour style and `((h + 11) mod 12) + 1`, a value from 1 to 12,
otherwise; with its terminator the text takes six of the buffer's eight bytes,
so the formatter stores it whole.  `tick_handler` does the same. -/
theorem update_time_renders_hours_minutes (env : Env) (s : State) (h m : Nat) (style : Bool)
    (hh : h < 24) (hm : m < 60)
    (htime : env.localtime (s.calls.length + 1) = ⟨h, m⟩)
    (hstyle : env.clock_is_24h_style (s.calls.length + 2) = style) :
    let HH := if style then h else (h + 11) % 12 + 1
    let text := [Char.ofNat (48 + HH / 10), Char.ofNat (48 + HH % 10), ':',
      Char.ofNat (48 + m / 10), Char.ofNat (48 + m % 10)]
    (update_time env s).calls
        = s.calls ++
          [Call.time, Call.localtime ⟨h, m⟩, Call.clock_is_24h_style style,
           Call.strftime 8 (if style then ['%', 'H', ':', '%', 'M'] else ['%', 'I', ':', '%', 'M'])
             (some text),
           Call.text_layer_set_text s.s_time_layer (some text)] ∧
      last_set_text (update_time env s).calls = some (s.s_time_layer, some text) ∧
      (update_time env s).s_buffer = some text ∧
      text.length = 5 ∧ text.length + 1 ≤ 8 ∧
      1 ≤ (h + 11) % 12 + 1 ∧ (h + 11) % 12 + 1 ≤ 12 ∧
      (∀ tm u, tick_handler env tm u s = update_time env s) := by
  intro HH text
  have h12 : (h + 11) % 12 + 1 < 100 := by omega
  have hcalls : (update_time env s).calls
        = s.calls ++
          [Call.time, Call.localtime ⟨h, m⟩, Call.clock_is_24h_style style,
           Call.strftime 8 (if style then ['%', 'H', ':', '%', 'M'] else ['%', 'I', ':', '%', 'M'])
             (some text),
           Call.text_layer_set_text s.s_time_layer (some text)] ∧
      (update_time env s).s_buffer = some text := by
    cases style <;>
      simp [update_time, emit, htime, hstyle, strftime, strftime_expand, hour12_eq,
        two_digits_eq _ h12, two_digits_eq h (by omega), two_digits_eq m (by omega), text, HH]
  refine ⟨hcalls.1, ?_, hcalls.2, rfl, by simp [text], by omega, by omega, fun _ _ => rfl⟩
  rw [hcalls.1]
  simp [last_set_text, List.foldl_append]

/-- Witness for C6: at 00:07 under the 12-hour style the text set is `12:07`. -/
theorem update_time_renders_hours_minutes_witness :
    last_set_text
        (update_time { Env.good .Basalt with
            localtime := fun _ => ⟨0, 7⟩, clock_is_24h_style := fun _ => false } State.initial).calls
      = some (none, some ['1', '2', ':', '0', '7']) :=
  (update_time_renders_hours_minutes
      { Env.good .Basalt with localtime := fun _ => ⟨0, 7⟩, clock_is_24h_style := fun _ => false }
      State.initial 0 7 false (by decide) (by decide) rfl rfl).2.1

/-! ## C1 -/

theorem cache_ok_initial : cache_ok State.initial := by
  intro r b h
  cases r <;> simp [cached, State.initial] at h

/-- C1, as the code has it: for a platform type of the table (Aplite, Diorite,
Basalt, Chalk), every value of `connected` and every prior state whose cached
pointers are null or hold the bitmap of their own resource, after
`bluetooth_callback(connected)` the bitmap set on the bitmap layer is a bitmap of
exactly the table's resource, and it is `current_bmp`, provided that the
resource's cached pointer is non-null or the decode the call asks for succeeds.
When the cached pointer is null and that decode fails, the pointer set on the
bitmap layer is `NULL`, and so are `current_bmp` and the cached pointer. -/
theorem bluetooth_callback_sets_table_bitmap (env : Env) (connected : Bool) (s : State)
    (r : ResourceId)
    (hr : image_for env.platform connected = some r)
    (hc : cache_ok s) :
    (cached s r ≠ none ∨
        env.decodes (s.calls.length + (if connected then 0 else 1)) r = true →
      ∃ b : GBitmap,
        last_set_bitmap (bluetooth_callback env connected s).calls
          = some (s.bitmap_layer, some b) ∧
        (bluetooth_callback env connected s).current_bmp = some b ∧
        b.res = r) ∧
    (cached s r = none →
        env.decodes (s.calls.length + (if connected then 0 else 1)) r = false →
      last_set_bitmap (bluetooth_callback env connected s).calls
        = some (s.bitmap_layer, none) ∧
      (bluetooth_callback env connected s).current_bmp = none ∧
      cached (bluetooth_callback env connected s) r = none) := by
  obtain ⟨hcur, hset⟩ := bluetooth_callback_shows env connected s r hr
  have hcache := bluetooth_callback_cached env connected s r
  rw [hcur, hset, hcache]
  constructor
  · intro hd
    rcases hn : cached s r with _ | b
    · have hd1 : env.decodes (s.calls.length + (if connected then 0 else 1)) r = true := by
        rcases hd with hd | hd
        · exact absurd hn hd
        · exact hd
      refine ⟨⟨s.calls.length + (if connected then 0 else 1), r⟩, ?_, ?_, rfl⟩ <;>
        simp [hr, gbitmap_create_with_resource, hd1]
    · exact ⟨b, by simp, by simp, hc r b hn⟩
  · intro hn hd
    simp [hr, hn, gbitmap_create_with_resource, hd]

/-- Witness for C1: a disconnect on Basalt from the initial state sets a bitmap of
the colour disconnect image when the decode succeeds, and `NULL` when it fails. -/
theorem bluetooth_callback_sets_table_bitmap_witness :
    (∃ b : GBitmap,
      last_set_bitmap (bluetooth_callback (Env.good .Basalt) false State.initial).calls
        = some (State.initial.bitmap_layer, some b) ∧
      (bluetooth_callback (Env.good .Basalt) false State.initial).current_bmp = some b ∧
      b.res = ResourceId.IMAGE_COLOR_DISS) ∧
    (last_set_bitmap (bluetooth_callback (Env.no_decode .Basalt) false State.initial).calls
        = some (State.initial.bitmap_layer, none) ∧
      (bluetooth_callback (Env.no_decode .Basalt) false State.initial).current_bmp = none ∧
      cached (bluetooth_callback (Env.no_decode .Basalt) false State.initial)
        ResourceId.IMAGE_COLOR_DISS = none) :=
  ⟨(bluetooth_callback_sets_table_bitmap (Env.good .Basalt) false State.initial
      ResourceId.IMAGE_COLOR_DISS rfl cache_ok_initial).1 (Or.inr rfl),
    (bluetooth_callback_sets_table_bitmap (Env.no_decode .Basalt) false State.initial
      ResourceId.IMAGE_COLOR_DISS rfl cache_ok_initial).2 rfl rfl⟩

/-- C1 as stated fails when decoding fails: on Aplite, connected, from the initial
state (every cached pointer null), with a framework that cannot decode, the
bitmap set on the layer is `NULL`, not a bitmap of `IMAGE_MONO_WEEZER`. -/
theorem bluetooth_callback_null_bitmap_when_decode_fails :
    cache_ok State.initial ∧
    image_for (Env.no_decode .Aplite).platform true = some ResourceId.IMAGE_MONO_WEEZER ∧
    last_set_bitmap (bluetooth_callback (Env.no_decode .Aplite) true State.initial).calls
      = some (none, none) ∧
    ¬ ∃ b : GBitmap,
      last_set_bitmap (bluetooth_callback (Env.no_decode .Aplite) true State.initial).calls
        = some (State.initial.bitmap_layer, some b) ∧
      b.res = ResourceId.IMAGE_MONO_WEEZER := by
  have h : last_set_bitmap
      (bluetooth_callback (Env.no_decode .Aplite) true State.initial).calls
      = some (none, none) := by decide
  refine ⟨cache_ok_initial, rfl, h, ?_⟩
  rintro ⟨b, hb, -⟩
  rw [h] at hb
  simp at hb

/-! ## C3 -/

theorem run_append_one (env : Env) (evs : List Event) (e : Event) (s : State) :
    run env (evs ++ [e]) s = step env (run env evs s) e := by
  simp [run, List.foldl_append]

theorem cached_mem_cached_pointers (s : State) (r : ResourceId)
    (hr : r ≠ ResourceId.FONT_CGOTHIC_28) : cached s r ∈ cached_pointers s := by
  cases r <;> simp [cached, cached_pointers] at hr ⊢

theorem image_for_ne_font (p : PlatformType) (c : Bool) (r : ResourceId)
    (hr : image_for p c = some r) : r ≠ ResourceId.FONT_CGOTHIC_28 := by
  cases p <;> cases c <;> simp [image_for] at hr <;> simp [← hr]

theorem image_for_listed (p : PlatformType) (c : Bool) (hp : p ≠ PlatformType.Emery) :
    ∃ r, image_for p c = some r := by
  cases p <;> cases c <;> simp [image_for] at hp ⊢

/-- After `bluetooth_callback` on a listed platform with decoding succeeding, the
current bitmap is non-null, is one of the six cached pointers and is what the
layer shows. -/
theorem bluetooth_callback_current (env : Env) (c : Bool) (s : State)
    (hp : env.platform ≠ PlatformType.Emery) (hd : ∀ t r, env.decodes t r = true) :
    (bluetooth_callback env c s).current_bmp ≠ none ∧
    (bluetooth_callback env c s).current_bmp ∈ cached_pointers (bluetooth_callback env c s) ∧
    last_set_bitmap (bluetooth_callback env c s).calls
      = some ((bluetooth_callback env c s).bitmap_layer,
          (bluetooth_callback env c s).current_bmp) := by
  obtain ⟨r, hr⟩ := image_for_listed env.platform c hp
  obtain ⟨hcur, hset⟩ := bluetooth_callback_shows env c s r hr
  refine ⟨?_, ?_, ?_⟩
  · rw [hcur, bluetooth_callback_cached]
    split
    · simp [gbitmap_create_with_resource, hd]
    · rename_i h
      intro hn
      exact h ⟨hr, hn⟩
  · rw [hcur]
    exact cached_mem_cached_pointers _ r (image_for_ne_font _ _ _ hr)
  · rw [hset, hcur, bluetooth_callback_layer]

theorem window_load_current (env : Env) (w : Option Nat) (s : State)
    (hp : env.platform ≠ PlatformType.Emery) (hd : ∀ t r, env.decodes t r = true) :
    (window_load env w s).current_bmp ≠ none ∧
    (window_load env w s).current_bmp ∈ cached_pointers (window_load env w s) ∧
    last_set_bitmap (window_load env w s).calls
      = some ((window_load env w s).bitmap_layer, (window_load env w s).current_bmp) := by
  simp only [window_load]
  rw [show_weezer_eq]
  exact bluetooth_callback_current env true _ hp hd

theorem step_unlisted (env : Env) (s : State) (e : Event)
    (hp : env.platform = PlatformType.Emery) :
    (step env s e).current_bmp = s.current_bmp ∧
    last_set_bitmap (step env s e).calls = last_set_bitmap s.calls := by
  have hi : ∀ c, image_for env.platform c = none := by
    intro c
    cases c <;> simp [hp, image_for]
  cases e with
  | window_load =>
    simp only [step, window_load]
    rw [show_weezer_eq, bluetooth_callback_unlisted env true _ (hi true)]
    simp [emit, last_set_bitmap, List.foldl_append]
  | window_unload =>
    simp only [step, window_unload]
    split <;> simp [emit, last_set_bitmap, List.foldl_append]
  | tick tm u =>
    simp [step, tick_handler, update_time, emit, last_set_bitmap, List.foldl_append]
  | connection c =>
    simp only [step]
    rw [bluetooth_callback_unlisted env c s (hi c)]
    cases c <;> simp [emit, last_set_bitmap, List.foldl_append]

theorem run_unlisted (env : Env) (evs : List Event) (s : State)
    (hp : env.platform = PlatformType.Emery) :
    (run env evs s).current_bmp = s.current_bmp ∧
    last_set_bitmap (run env evs s).calls = last_set_bitmap s.calls := by
  induction evs using List.reverseRecOn with
  | nil => exact ⟨rfl, rfl⟩
  | append_singleton evs e ih =>
    rw [run_append_one]
    obtain ⟨h1, h2⟩ := step_unlisted env (run env evs s) e hp
    exact ⟨h1.trans ih.1, h2.trans ih.2⟩

/-- C3, as the code has it: on a platform type the switch statements list
(Aplite, Diorite, Basalt, Chalk), in every state reached by `window_load`
followed by any finite sequence of `bluetooth_callback(true/false)` calls,
`current_bmp` is non-null, equals one of the six cached bitmap pointers, and is
the bitmap most recently set on the bitmap layer, assuming decoding succeeds.
On a platform type the switch statements do not list, every sequence of events
leaves `current_bmp` and the bitmap most recently set on the layer as they
were, so from the initial state no bitmap is ever set and `current_bmp` stays
null. -/
theorem current_bmp_is_one_of_six (env : Env) (s0 : State) (cs : List Bool) :
    (env.platform ≠ PlatformType.Emery → (∀ t r, env.decodes t r = true) →
      (run env (Event.window_load :: cs.map Event.connection) s0).current_bmp ≠ none ∧
      (run env (Event.window_load :: cs.map Event.connection) s0).current_bmp
        ∈ cached_pointers (run env (Event.window_load :: cs.map Event.connection) s0) ∧
      last_set_bitmap (run env (Event.window_load :: cs.map Event.connection) s0).calls
        = some ((run env (Event.window_load :: cs.map Event.connection) s0).bitmap_layer,
            (run env (Event.window_load :: cs.map Event.connection) s0).current_bmp)) ∧
    (env.platform = PlatformType.Emery →
      (∀ evs : List Event,
        (run env evs s0).current_bmp = s0.current_bmp ∧
        last_set_bitmap (run env evs s0).calls = last_set_bitmap s0.calls) ∧
      (∀ evs : List Event,
        (run env evs State.initial).current_bmp = none ∧
        last_set_bitmap (run env evs State.initial).calls = none)) := by
  constructor
  · intro hp hd
    induction cs using List.reverseRecOn with
    | nil => exact window_load_current env s0.window s0 hp hd
    | append_singleton cs c _ =>
      rw [List.map_append, ← List.cons_append, List.map_singleton, run_append_one]
      exact bluetooth_callback_current env c _ hp hd
  · intro hp
    exact ⟨fun evs => run_unlisted env evs s0 hp, fun evs => run_unlisted env evs _ hp⟩

/-- Witness for C3: on Chalk, load, disconnect, reconnect shows a cached bitmap; on
Emery the same events from the initial state leave `current_bmp` null. -/
theorem current_bmp_is_one_of_six_witness :
    ((run (Env.good .Chalk) (Event.window_load :: [false, true].map Event.connection)
        State.initial).current_bmp ≠ none ∧
    (run (Env.good .Chalk) (Event.window_load :: [false, true].map Event.connection)
        State.initial).current_bmp
      ∈ cached_pointers (run (Env.good .Chalk)
          (Event.window_load :: [false, true].map Event.connection) State.initial) ∧
    last_set_bitmap (run (Env.good .Chalk)
        (Event.window_load :: [false, true].map Event.connection) State.initial).calls
      = some ((run (Env.good .Chalk) (Event.window_load :: [false, true].map Event.connection)
            State.initial).bitmap_layer,
          (run (Env.good .Chalk) (Event.window_load :: [false, true].map Event.connection)
            State.initial).current_bmp)) ∧
    ((run (Env.good .Emery) (Event.window_load :: [false, true].map Event.connection)
        State.initial).current_bmp = none ∧
    last_set_bitmap (run (Env.good .Emery)
        (Event.window_load :: [false, true].map Event.connection) State.initial).calls
      = none) :=
  ⟨(current_bmp_is_one_of_six (Env.good .Chalk) State.initial [false, true]).1 (by decide)
      (fun _ _ => rfl),
    ((current_bmp_is_one_of_six (Env.good .Emery) State.initial [false, true]).2 rfl).2
      (Event.window_load :: [false, true].map Event.connection)⟩

/-- C3 as stated fails on a platform type the switch statements do not list: on
Emery, after `window_load` from the initial state, `current_bmp` is still null
and no bitmap was ever set on the layer, although every decode would succeed. -/
theorem current_bmp_null_on_unlisted_platform :
    (run (Env.good .Emery) [Event.window_load] State.initial).current_bmp = none ∧
    last_set_bitmap (run (Env.good .Emery) [Event.window_load] State.initial).calls = none ∧
    (run (Env.good .Emery) [Event.window_load, Event.connection false, Event.connection true]
      State.initial).current_bmp = none := by
  decide

/-! ## Decodes and cached pointers along a run -/

theorem window_load_decoded (env : Env) (w : Option Nat) (s : State) :
    decoded (window_load env w s).calls = decoded s.calls ++ selected_decode env true s := by
  simp only [window_load]
  rw [show_weezer_eq, bluetooth_callback_decoded]
  simp [emit, decoded, selected_decode, cached]

theorem window_unload_decoded (env : Env) (w : Option Nat) (s : State) :
    decoded (window_unload env w s).calls = decoded s.calls := by
  simp only [window_unload]
  split <;> simp [emit, decoded]

theorem update_time_decoded (env : Env) (s : State) :
    decoded (update_time env s).calls = decoded s.calls := by
  simp [update_time, emit, decoded]

theorem step_decoded (env : Env) (s : State) (e : Event) :
    decoded (step env s e).calls = decoded s.calls ++ event_decode env s e := by
  cases e with
  | window_load => simpa [step, event_decode, event_selects] using window_load_decoded env _ s
  | window_unload =>
    simpa [step, event_decode, event_selects] using window_unload_decoded env _ s
  | tick tm u =>
    simpa [step, event_decode, event_selects, tick_handler] using update_time_decoded env s
  | connection c =>
    simpa [step, event_decode, event_selects] using bluetooth_callback_decoded env c s

theorem mem_selected_decode (env : Env) (c : Bool) (s : State) (r : ResourceId) :
    r ∈ selected_decode env c s ↔ image_for env.platform c = some r ∧ cached s r = none := by
  unfold selected_decode
  split
  · rename_i r0 h0
    rw [h0]
    by_cases hr : r0 = r
    · subst hr
      cases hc : cached s r0 <;> simp
    · have hr2 : ¬ r = r0 := fun h => hr h.symm
      cases hc : cached s r0 <;> simp [hr, hr2]
  · rename_i h0
    simp [h0]

theorem selected_decode_eq_of_mem (env : Env) (c : Bool) (s : State) (r : ResourceId)
    (h : r ∈ selected_decode env c s) : selected_decode env c s = [r] := by
  obtain ⟨hi, hc⟩ := (mem_selected_decode env c s r).mp h
  simp [selected_decode, hi, hc]

theorem event_decode_mem (env : Env) (s : State) (e : Event) (r : ResourceId)
    (h : r ∈ event_decode env s e) :
    cached s r = none ∧ event_decode env s e = [r] ∧
      ∃ c, event_selects e = some c ∧ image_for env.platform c = some r := by
  unfold event_decode at h ⊢
  rcases hs : event_selects e with _ | c
  · simp [hs] at h
  · simp only [hs] at h ⊢
    obtain ⟨hi, hc⟩ := (mem_selected_decode env c s r).mp h
    exact ⟨hc, selected_decode_eq_of_mem env c s r h, c, rfl, hi⟩

theorem connected_image_not_diss (p : PlatformType) (r : ResourceId)
    (h : image_for p true = some r) : is_diss r = false := by
  cases p <;> simp [image_for] at h <;> simp [← h, is_diss]

theorem run_decoded_in_table (env : Env) (evs : List Event) (r : ResourceId)
    (h : r ∈ decoded (run env evs State.initial).calls) :
    ∃ c, image_for env.platform c = some r := by
  induction evs using List.reverseRecOn with
  | nil => simp [run, State.initial, decoded] at h
  | append_singleton evs e ih =>
    rw [run_append_one, step_decoded, List.mem_append] at h
    rcases h with h | h
    · exact ih h
    · obtain ⟨-, -, c, -, hc⟩ := event_decode_mem env _ e r h
      exact ⟨c, hc⟩

theorem run_no_diss_before_disconnect (env : Env) (evs : List Event)
    (hno : Event.connection false ∉ evs) (r : ResourceId)
    (h : r ∈ decoded (run env evs State.initial).calls) : is_diss r = false := by
  induction evs using List.reverseRecOn with
  | nil => simp [run, State.initial, decoded] at h
  | append_singleton evs e ih =>
    rw [List.mem_append, not_or] at hno
    rw [run_append_one, step_decoded, List.mem_append] at h
    rcases h with h | h
    · exact ih hno.1 h
    · obtain ⟨-, -, c, hsel, hc⟩ := event_decode_mem env _ e r h
      have hct : c = true := by
        cases e with
        | window_load => simpa [event_selects] using hsel.symm
        | window_unload => simp [event_selects] at hsel
        | tick tm u => simp [event_selects] at hsel
        | connection c0 =>
          simp only [event_selects, Option.some.injEq] at hsel
          subst hsel
          cases c0
          · exact absurd (List.mem_singleton.mpr rfl) hno.2
          · rfl
      subst hct
      exact connected_image_not_diss _ _ hc

/-- C8, as the code has it: image loads are lazy.  From the initial state, on a
platform type of the table (Aplite, Diorite, Basalt, Chalk) `window_load` decodes
exactly one image resource, the connected image of the current platform type; on
a platform type outside the table it decodes none.  On every platform type, a
sequence of events without `bluetooth_callback(false)` decodes no disconnect
image, and every resource any sequence of events decodes is an image of the
current platform type.  A call of `show_weezer` or `bluetooth_callback` leaves
every cached pointer other than the one it selects unchanged, and every other
static except `current_bmp` as well. -/
theorem image_loads_are_lazy (env : Env) (evs : List Event)
    (hno : Event.connection false ∉ evs) :
    (env.platform ≠ PlatformType.Emery →
      ∃ r, image_for env.platform true = some r ∧
        ∀ w, decoded (window_load env w State.initial).calls = [r]) ∧
    (env.platform = PlatformType.Emery →
      ∀ w, decoded (window_load env w State.initial).calls = []) ∧
    (∀ r ∈ decoded (run env evs State.initial).calls, is_diss r = false) ∧
    (∀ (evs1 : List Event) (r : ResourceId), r ∈ decoded (run env evs1 State.initial).calls →
      r ∈ (image_for env.platform true).toList ++ (image_for env.platform false).toList) ∧
    (∀ (s : State) (c : Bool) (r : ResourceId), image_for env.platform c ≠ some r →
      cached (bluetooth_callback env c s) r = cached s r) ∧
    (∀ (s : State) (r : ResourceId), image_for env.platform true ≠ some r →
      cached (show_weezer env s) r = cached s r) ∧
    (∀ (s : State) (c : Bool),
      { bluetooth_callback env c s with
          current_bmp := s.current_bmp,
          mono_weezer := s.mono_weezer, color_weezer := s.color_weezer,
          round_weezer := s.round_weezer, mono_diss := s.mono_diss,
          color_diss := s.color_diss, round_diss := s.round_diss,
          calls := s.calls } = s) := by
  refine ⟨?_, ?_, ?_, ?_, ?_, ?_, ?_⟩
  · intro hp
    obtain ⟨r, hr⟩ := image_for_listed env.platform true hp
    refine ⟨r, hr, fun w => ?_⟩
    rw [window_load_decoded]
    have hc : cached State.initial r = none := by
      cases r <;> simp [cached, State.initial]
    simp [State.initial, decoded, selected_decode, hr]
    simpa [State.initial] using hc
  · intro hp w
    rw [window_load_decoded]
    simp [State.initial, decoded, selected_decode, image_for, hp]
  · exact fun r hr => run_no_diss_before_disconnect env evs hno r hr
  · intro evs1 r hr
    obtain ⟨c, hc⟩ := run_decoded_in_table env evs1 r hr
    cases c <;> simp [hc]
  · intro s c r hr
    rw [bluetooth_callback_cached]
    simp [hr]
  · intro s r hr
    rw [show_weezer_eq, bluetooth_callback_cached]
    simp [hr]
  · intro s c
    obtain ⟨h1, h2, h3, h4, h5, h6⟩ := bluetooth_callback_other_statics env c s
    have h7 := bluetooth_callback_layer env c s
    cases s
    simp_all

/-- Witness for C8: on Chalk, load, reconnect and a tick contain no disconnect;
the round connected image is decoded, and it is not a disconnect image. -/
theorem image_loads_are_lazy_witness :
    Event.connection false ∉
      [Event.window_load, Event.connection true, Event.tick ⟨9, 5⟩ TimeUnits.MINUTE_UNIT] ∧
    ResourceId.IMAGE_ROUND_WEEZER ∈ decoded (run (Env.good .Chalk)
        [Event.window_load, Event.connection true, Event.tick ⟨9, 5⟩ TimeUnits.MINUTE_UNIT]
        State.initial).calls ∧
    is_diss ResourceId.IMAGE_ROUND_WEEZER = false ∧
    (∃ r, image_for (Env.good .Chalk).platform true = some r ∧
      ∀ w, decoded (window_load (Env.good .Chalk) w State.initial).calls = [r]) :=
  ⟨by decide, by decide,
    (image_loads_are_lazy (Env.good .Chalk)
      [Event.window_load, Event.connection true, Event.tick ⟨9, 5⟩ TimeUnits.MINUTE_UNIT]
      (by decide)).2.2.1 ResourceId.IMAGE_ROUND_WEEZER (by decide),
    (image_loads_are_lazy (Env.good .Chalk)
      [Event.window_load, Event.connection true, Event.tick ⟨9, 5⟩ TimeUnits.MINUTE_UNIT]
      (by decide)).1 (by decide)⟩

/-- C8 as stated fails on a platform type outside the table: on Emery, with every
decode succeeding, `window_load` from the initial state decodes no image
resource, not exactly one. -/
theorem window_load_decodes_nothing_on_unlisted_platform :
    decoded (window_load (Env.good .Emery) none State.initial).calls = [] ∧
    (decoded (window_load (Env.good .Emery) none State.initial).calls).length ≠ 1 ∧
    image_for (Env.good .Emery).platform true = none := by
  decide

/-! ## C10 -/

/-- C5 at a failing run: on Aplite with every decode succeeding, `window_load`,
then a disconnect, then `window_unload`.  Two bitmaps were decoded, the connected
one at moment 15 and the disconnect one at moment 18; `window_unload` passes only
the second, `current_bmp`, to `gbitmap_destroy`, so the connected bitmap is never
released.  The font is unloaded. -/
theorem window_unload_releases_only_current_bmp :
    created_bitmaps (run (Env.good .Aplite)
        [Event.window_load, Event.connection false, Event.window_unload] State.initial).calls
      = [⟨15, ResourceId.IMAGE_MONO_WEEZER⟩, ⟨18, ResourceId.IMAGE_MONO_DISS⟩] ∧
    destroyed_bitmaps (run (Env.good .Aplite)
        [Event.window_load, Event.connection false, Event.window_unload] State.initial).calls
      = [some ⟨18, ResourceId.IMAGE_MONO_DISS⟩] ∧
    Call.fonts_load_custom_font (some 6) ∈ (run (Env.good .Aplite)
        [Event.window_load, Event.connection false, Event.window_unload] State.initial).calls ∧
    Call.fonts_unload_custom_font (some 6) ∈ (run (Env.good .Aplite)
        [Event.window_load, Event.connection false, Event.window_unload] State.initial).calls := by
  decide

/-! ## C9 -/

theorem update_time_battery_layer (env : Env) (s : State) :
    (update_time env s).s_battery_layer = s.s_battery_layer := by
  simp [update_time, emit]

theorem window_load_battery_layer (env : Env) (w : Option Nat) (s : State) :
    (window_load env w s).s_battery_layer = s.s_battery_layer := by
  simp only [window_load]
  rw [show_weezer_eq, (bluetooth_callback_other_statics env true _).2.2.1]
  simp [emit]

theorem window_unload_battery_layer (env : Env) (w : Option Nat) (s : State) :
    (window_unload env w s).s_battery_layer = s.s_battery_layer := by
  simp only [window_unload]
  split <;> simp [emit]

theorem run_window_handler_battery_layer (env : Env) (cb : Option Callback) (w : Option Nat)
    (s : State) :
    (run_window_handler env cb w s).s_battery_layer = s.s_battery_layer := by
  unfold run_window_handler
  split
  · exact window_load_battery_layer env w s
  · exact window_unload_battery_layer env w s
  · rfl

theorem init_battery_layer (env : Env) (s : State) :
    (init env s).s_battery_layer = s.s_battery_layer := by
  simp only [init, window_stack_push]
  simp only [emit, update_time_battery_layer, run_window_handler_battery_layer]

theorem step_battery_layer (env : Env) (s : State) (e : Event) :
    (step env s e).s_battery_layer = s.s_battery_layer := by
  cases e with
  | window_load => exact window_load_battery_layer env s.window s
  | window_unload => exact window_unload_battery_layer env s.window s
  | tick tm u => exact update_time_battery_layer env s
  | connection c => exact (bluetooth_callback_other_statics env c s).2.2.1

theorem run_battery_layer (env : Env) (evs : List Event) (s : State) :
    (run env evs s).s_battery_layer = s.s_battery_layer := by
  induction evs using List.reverseRecOn with
  | nil => rfl
  | append_singleton evs e ih => rw [run_append_one, step_battery_layer, ih]

/-- C9 at every run: whatever the framework answers and whatever events follow
`init` from the initial state, `s_battery_layer` is still null when
`window_unload` runs, and `window_unload` passes that null pointer to
`layer_destroy`.  No call of the program creates a plain layer. -/
theorem window_unload_destroys_null_battery_layer (env : Env) (evs : List Event)
    (w : Option Nat) :
    (run env evs (init env State.initial)).s_battery_layer = none ∧
    destroyed_layers (window_unload env w (run env evs (init env State.initial))).calls
      = destroyed_layers (run env evs (init env State.initial)).calls ++ [none] := by
  have h : (run env evs (init env State.initial)).s_battery_layer = none := by
    rw [run_battery_layer, init_battery_layer]
    rfl
  refine ⟨h, ?_⟩
  simp only [window_unload]
  split <;> simp [emit, destroyed_layers, List.filterMap_append, h]

end Weezeface

